import Mathlib

/-!
Verification of the cross-runtime value exchange fixture
`src/TestSamples/export_x.c` against its specification.

The fixture's own code is the single function `main`, which performs three
calls of the polyglot embedding API: it exports the 8-bit signed integer
`x = 42` under the name "x", evaluates the artifact "hello.ll" under the
dialect "llvm", and coerces the evaluation result to an 8-bit signed
integer `y`.  The embedding runtime itself (the symbol namespace, artifact
evaluation, and coercion) is an external collaborator whose code is not in
the repository; its operations are modelled here from the spec's protocol
description, as a tagged-variant runtime value, an explicit exchange
context, and fallible operations returning `Except`.
-/

/-- The abstract error taxonomy of the exchange protocol (spec section 7). -/
inductive PolyglotError where
  | NamespaceCollisionError
  | ArtifactResolutionError
  | DialectEvaluationError
  | RepresentationMismatchError
deriving DecidableEq, Repr

/-- A runtime-owned value behind an opaque handle, represented as a tagged
variant (kind plus payload), as the spec's design notes direct. -/
inductive RuntimeValue where
  | intVal (n : Int)
  | strVal (s : String)
  | nullVal
deriving DecidableEq, Repr

/-- The process-wide export namespace: symbolic names bound to published
8-bit integer values. -/
def ExportNames : Type := List (String × Int)

/-- An external program unit: opaque to the harness; its behaviour is a
function of the declared dialect tag and the current export namespace,
possibly failing with a dialect evaluation fault. -/
structure Artifact where
  run : String → List (String × Int) → Except PolyglotError RuntimeValue

/-- The injected exchange context of the spec's design notes: the resolvable
artifacts and the process-wide export namespace. -/
structure ExchangeContext where
  files : List (String × Artifact)
  names : List (String × Int)

/-- Modelled from the spec: `polyglot_export` (the embedding runtime's export
operation, not part of the repository's sources) publishes `value` under
`name` in the export namespace; it fails with NamespaceCollisionError when
the namespace already holds `name`. -/
def polyglot_export (name : String) (value : Int) (ctx : ExchangeContext) :
    Except PolyglotError ExchangeContext :=
  match ctx.names.lookup name with
  | some _ => .error .NamespaceCollisionError
  | none => .ok { ctx with names := (name, value) :: ctx.names }

/-- Modelled from the spec: `polyglot_eval_file` (the embedding runtime's
evaluate operation, not part of the repository's sources) resolves `path` to
an artifact and evaluates it under `dialect` against the current export
namespace; an unresolvable path fails with ArtifactResolutionError. -/
def polyglot_eval_file (dialect path : String) (ctx : ExchangeContext) :
    Except PolyglotError RuntimeValue :=
  match ctx.files.lookup path with
  | none => .error .ArtifactResolutionError
  | some art => art.run dialect ctx.names

/-- Modelled from the spec: `polyglot_as_i8` (the embedding runtime's coercion
operation, not part of the repository's sources) narrows an opaque runtime
value to an 8-bit signed integer; any representation that is not an integer
in [-128, 127] fails with RepresentationMismatchError. -/
def polyglot_as_i8 (v : RuntimeValue) : Except PolyglotError Int :=
  match v with
  | .intVal n =>
      if -128 ≤ n ∧ n ≤ 127 then .ok n else .error .RepresentationMismatchError
  | _ => .error .RepresentationMismatchError

/-- Whether a runtime value's representation is compatible with an 8-bit
signed integer. -/
def int8Compatible : RuntimeValue → Bool
  | .intVal n => decide (-128 ≤ n ∧ n ≤ 127)
  | _ => false

/-- An observable embedding-API call performed by the harness, with the
arguments it was invoked on. -/
inductive Event where
  | exportCall (name : String) (value : Int)
  | evalCall (dialect path : String)
  | asI8Call (v : RuntimeValue)
deriving DecidableEq, Repr

/-- Whether an event is an export call, i.e. a write to the export
namespace. -/
def Event.isExportCall : Event → Bool
  | .exportCall _ _ => true
  | _ => false

namespace ExportX

/-- The harness `main` of src/TestSamples/export_x.c, instrumented with the
trace of embedding-API calls it performs.  A failing call is fatal: the run
stops there with that error.  On success the final exchange context and the
local `y` are returned alongside the trace (the C function itself is void;
see `mainVoid`). -/
def main (ctx : ExchangeContext) :
    List Event × Except PolyglotError (ExchangeContext × Int) :=
  let x : Int := 42
  match polyglot_export "x" x ctx with
  | .error e => ([.exportCall "x" x], .error e)
  | .ok ctx1 =>
    match polyglot_eval_file "llvm" "hello.ll" ctx1 with
    | .error e => ([.exportCall "x" x, .evalCall "llvm" "hello.ll"], .error e)
    | .ok evaluated =>
      match polyglot_as_i8 evaluated with
      | .error e =>
          ([.exportCall "x" x, .evalCall "llvm" "hello.ll", .asI8Call evaluated],
           .error e)
      | .ok y =>
          ([.exportCall "x" x, .evalCall "llvm" "hello.ll", .asI8Call evaluated],
           .ok (ctx1, y))

/-- The harness exactly as the C source has it: `void main`, the coerced
local `y` bound on line 9 and then discarded. -/
def mainVoid (ctx : ExchangeContext) :
    List Event × Except PolyglotError Unit :=
  let x : Int := 42
  match polyglot_export "x" x ctx with
  | .error e => ([.exportCall "x" x], .error e)
  | .ok ctx1 =>
    match polyglot_eval_file "llvm" "hello.ll" ctx1 with
    | .error e => ([.exportCall "x" x, .evalCall "llvm" "hello.ll"], .error e)
    | .ok evaluated =>
      match polyglot_as_i8 evaluated with
      | .error e =>
          ([.exportCall "x" x, .evalCall "llvm" "hello.ll", .asI8Call evaluated],
           .error e)
      | .ok _ =>
          ([.exportCall "x" x, .evalCall "llvm" "hello.ll", .asI8Call evaluated],
           .ok ())

end ExportX

/-- An artifact that reads the exported "x" and echoes it unchanged, used as
a concrete pinned artifact behaviour for witnesses. -/
def echoArtifact : Artifact where
  run := fun _ names =>
    match names.lookup "x" with
    | some v => .ok (.intVal v)
    | none => .error .DialectEvaluationError

/-- A concrete exchange context: "hello.ll" resolves to the echo artifact and
the export namespace is empty. -/
def echoContext : ExchangeContext where
  files := [("hello.ll", echoArtifact)]
  names := []

/-- Inversion helper: a successful export prepends the new binding to the
export namespace. -/
theorem polyglot_export_ok_names {n : String} {v : Int} {ctx c : ExchangeContext}
    (h : polyglot_export n v ctx = .ok c) : c.names = (n, v) :: ctx.names := by
  unfold polyglot_export at h
  cases hl : ctx.names.lookup n <;> rw [hl] at h <;> simp at h
  rw [← h]

/-- C3: for every valid 8-bit signed integer v and every name n not already
published, export(n, v) followed by a lookup of n in the resulting namespace
yields exactly v, unchanged. -/
theorem polyglot_export_roundtrip (n : String) (v : Int) (ctx : ExchangeContext)
    (hrange : -128 ≤ v ∧ v ≤ 127) (hfresh : ctx.names.lookup n = none) :
    ∃ c, polyglot_export n v ctx = .ok c ∧ c.names.lookup n = some v := by
  refine ⟨{ ctx with names := (n, v) :: ctx.names }, ?_, ?_⟩
  · unfold polyglot_export
    rw [hfresh]
  · simp [List.lookup]

/-- Witness for C3: exporting 7 under "n" into an empty namespace and looking
"n" up yields 7. -/
theorem polyglot_export_roundtrip_witness :
    ∃ c, polyglot_export "n" 7 { files := [], names := [] } = .ok c
      ∧ c.names.lookup "n" = some 7 :=
  polyglot_export_roundtrip "n" 7 { files := [], names := [] } (by decide) rfl

/-- C4: exporting twice under the same name in one process raises
NamespaceCollisionError on the second call. -/
theorem polyglot_export_collision (n : String) (v1 v2 : Int)
    (ctx c : ExchangeContext) (h : polyglot_export n v1 ctx = .ok c) :
    polyglot_export n v2 c = .error .NamespaceCollisionError := by
  have hn := polyglot_export_ok_names h
  unfold polyglot_export
  rw [hn]
  simp [List.lookup]

/-- Witness for C4: after exporting 1 under "n", exporting 2 under "n" again
collides. -/
theorem polyglot_export_collision_witness :
    polyglot_export "n" 2 { files := [], names := [("n", 1)] }
      = .error .NamespaceCollisionError :=
  polyglot_export_collision "n" 1 2 { files := [], names := [] }
    { files := [], names := [("n", 1)] } rfl

/-- C5: evaluating a path that resolves to no artifact raises
ArtifactResolutionError and no other error kind, for every dialect. -/
theorem polyglot_eval_file_unresolved (dialect path : String)
    (ctx : ExchangeContext) (h : ctx.files.lookup path = none) :
    polyglot_eval_file dialect path ctx = .error .ArtifactResolutionError := by
  unfold polyglot_eval_file
  rw [h]

/-- Witness for C5: evaluating "hello.ll" with no resolvable artifacts fails
with ArtifactResolutionError. -/
theorem polyglot_eval_file_unresolved_witness :
    polyglot_eval_file "llvm" "hello.ll" { files := [], names := [] }
      = .error .ArtifactResolutionError :=
  polyglot_eval_file_unresolved "llvm" "hello.ll" { files := [], names := [] } rfl

/-- C6: coercion to int8 raises RepresentationMismatchError on every runtime
value that is out of the 8-bit signed range or of a non-integer kind, and
succeeds only on values compatible with an 8-bit signed integer. -/
theorem polyglot_as_i8_mismatch (v : RuntimeValue) :
    (int8Compatible v = false →
      polyglot_as_i8 v = .error .RepresentationMismatchError)
    ∧ ∀ y, polyglot_as_i8 v = .ok y → int8Compatible v = true := by
  cases v with
  | intVal n =>
      constructor
      · intro h
        simp only [int8Compatible, decide_eq_false_iff_not] at h
        simp [polyglot_as_i8, h]
      · intro y hy
        simp only [polyglot_as_i8] at hy
        by_cases hr : -128 ≤ n ∧ n ≤ 127
        · simp [int8Compatible, hr]
        · simp [hr] at hy
  | strVal s => simp [int8Compatible, polyglot_as_i8]
  | nullVal => simp [int8Compatible, polyglot_as_i8]

/-- Witness for C6: coercing the out-of-range integer 200 fails with
RepresentationMismatchError. -/
theorem polyglot_as_i8_mismatch_witness :
    polyglot_as_i8 (.intVal 200) = .error .RepresentationMismatchError :=
  (polyglot_as_i8_mismatch (.intVal 200)).1 (by decide)

/-- C1: when "hello.ll" resolves to an artifact, "x" is fresh in the export
namespace, and the artifact echoes the exported "x" unchanged, the harness
runs end to end without a fault and its coerced local y equals 42. -/
theorem ExportX.main_end_to_end (ctx : ExchangeContext) (art : Artifact)
    (hfile : ctx.files.lookup "hello.ll" = some art)
    (hfresh : ctx.names.lookup "x" = none)
    (hecho : ∀ ns v, List.lookup "x" ns = some v →
      art.run "llvm" ns = .ok (.intVal v)) :
    (ExportX.main ctx).2
      = .ok ({ ctx with names := ("x", 42) :: ctx.names }, 42) := by
  have hexp : polyglot_export "x" 42 ctx
      = .ok { ctx with names := ("x", 42) :: ctx.names } := by
    unfold polyglot_export
    rw [hfresh]
  have heval : polyglot_eval_file "llvm" "hello.ll"
      { ctx with names := ("x", 42) :: ctx.names } = .ok (.intVal 42) := by
    unfold polyglot_eval_file
    rw [hfile]
    exact hecho _ 42 (by simp [List.lookup])
  simp [ExportX.main, hexp, heval, polyglot_as_i8]

/-- Witness for C1: on the concrete context whose "hello.ll" is the echo
artifact and whose namespace is empty, the harness succeeds with y = 42. -/
theorem ExportX.main_end_to_end_witness :
    (ExportX.main echoContext).2
      = .ok ({ echoContext with names := ("x", 42) :: echoContext.names }, 42) :=
  ExportX.main_end_to_end echoContext echoArtifact rfl rfl
    (fun ns v h => by simp [echoArtifact, h])

/-- C2: on every context the harness performs exactly one export, then one
evaluation, then one coercion, in that strict order with nothing in between:
its call trace is one of the three initial segments of that sequence,
truncated only by a fatal failure. -/
theorem ExportX.main_trace_linear (ctx : ExchangeContext) :
    (ExportX.main ctx).1 = [.exportCall "x" 42]
    ∨ (ExportX.main ctx).1 = [.exportCall "x" 42, .evalCall "llvm" "hello.ll"]
    ∨ ∃ v, (ExportX.main ctx).1
        = [.exportCall "x" 42, .evalCall "llvm" "hello.ll", .asI8Call v] := by
  cases h1 : polyglot_export "x" 42 ctx with
  | error e => simp [ExportX.main, h1]
  | ok ctx1 =>
    cases h2 : polyglot_eval_file "llvm" "hello.ll" ctx1 with
    | error e => simp [ExportX.main, h1, h2]
    | ok v =>
      cases h3 : polyglot_as_i8 v with
      | error e => exact .inr (.inr ⟨v, by simp [ExportX.main, h1, h2, h3]⟩)
      | ok y => exact .inr (.inr ⟨v, by simp [ExportX.main, h1, h2, h3]⟩)

/-- C7: the export namespace receives exactly one write during the whole run
(the single export call in the trace), and on a completed run the name "x"
stays bound to 42 in the final context. -/
theorem ExportX.main_single_write (ctx : ExchangeContext) :
    (ExportX.main ctx).1.filter Event.isExportCall = [.exportCall "x" 42]
    ∧ ∀ c y, (ExportX.main ctx).2 = .ok (c, y) →
        c.names = ("x", 42) :: ctx.names ∧ c.names.lookup "x" = some 42 := by
  cases h1 : polyglot_export "x" 42 ctx with
  | error e => simp [ExportX.main, h1, Event.isExportCall]
  | ok ctx1 =>
    have hn := polyglot_export_ok_names h1
    cases h2 : polyglot_eval_file "llvm" "hello.ll" ctx1 with
    | error e => simp [ExportX.main, h1, h2, Event.isExportCall]
    | ok v =>
      cases h3 : polyglot_as_i8 v with
      | error e => simp [ExportX.main, h1, h2, h3, Event.isExportCall]
      | ok y =>
        refine ⟨by simp [ExportX.main, h1, h2, h3, Event.isExportCall], ?_⟩
        intro c yy hc
        simp only [ExportX.main, h1, h2, h3, Except.ok.injEq, Prod.mk.injEq] at hc
        rw [← hc.1]
        exact ⟨hn, by rw [hn]; simp [List.lookup]⟩

/-- Witness for C7: on the concrete echo context the trace holds exactly one
export call, and the completed run leaves "x" bound to 42. -/
theorem ExportX.main_single_write_witness :
    (ExportX.main echoContext).1.filter Event.isExportCall = [.exportCall "x" 42]
    ∧ ({ echoContext with names := [("x", 42)] } : ExchangeContext).names.lookup "x"
        = some 42 :=
  ⟨(ExportX.main_single_write echoContext).1,
   ((ExportX.main_single_write echoContext).2
      { echoContext with names := [("x", 42)] } 42
      (by simp [ExportX.main, echoContext, echoArtifact, polyglot_export,
                polyglot_eval_file, polyglot_as_i8, List.lookup])).2⟩

/-- C8: no error kind is caught or recovered within the harness: a failure of
any of the three calls makes the whole run end with exactly that error; and
whenever the evaluation returns a result, the harness hands that result to
the coercion unchecked (the coercion call on it appears in the trace). -/
theorem ExportX.main_error_propagation (ctx : ExchangeContext)
    (e : PolyglotError) :
    (polyglot_export "x" 42 ctx = .error e → (ExportX.main ctx).2 = .error e)
    ∧ (∀ c, polyglot_export "x" 42 ctx = .ok c →
        polyglot_eval_file "llvm" "hello.ll" c = .error e →
        (ExportX.main ctx).2 = .error e)
    ∧ (∀ c v, polyglot_export "x" 42 ctx = .ok c →
        polyglot_eval_file "llvm" "hello.ll" c = .ok v →
        Event.asI8Call v ∈ (ExportX.main ctx).1
        ∧ (polyglot_as_i8 v = .error e → (ExportX.main ctx).2 = .error e)) := by
  refine ⟨?_, ?_, ?_⟩
  · intro h1
    simp [ExportX.main, h1]
  · intro c h1 h2
    simp [ExportX.main, h1, h2]
  · intro c v h1 h2
    constructor
    · cases h3 : polyglot_as_i8 v with
      | error e1 => simp [ExportX.main, h1, h2, h3]
      | ok y => simp [ExportX.main, h1, h2, h3]
    · intro h3
      simp [ExportX.main, h1, h2, h3]

/-- Witness for C8: with no resolvable artifacts the evaluation's
ArtifactResolutionError is the harness's final, uncaught outcome. -/
theorem ExportX.main_error_propagation_witness :
    (ExportX.main { files := [], names := [] }).2
      = .error .ArtifactResolutionError :=
  (ExportX.main_error_propagation { files := [], names := [] }
      .ArtifactResolutionError).2.1
    { files := [], names := [("x", 42)] } rfl rfl

/-- C9: the full export/evaluate/coerce sequence is deterministic across
fresh processes: two runs started from contexts with the same artifacts and
the same initial namespace produce identical traces and identical outcomes,
including the coerced value y. -/
theorem ExportX.main_deterministic (ctx1 ctx2 : ExchangeContext)
    (hfiles : ctx1.files = ctx2.files) (hnames : ctx1.names = ctx2.names) :
    ExportX.main ctx1 = ExportX.main ctx2 := by
  cases ctx1
  cases ctx2
  cases hfiles
  cases hnames
  rfl

/-- Witness for C9: two runs from the concrete echo context coincide. -/
theorem ExportX.main_deterministic_witness :
    ExportX.main echoContext = ExportX.main echoContext :=
  ExportX.main_deterministic echoContext echoContext rfl rfl

/-- C10: the coerced local y is never used after line 9: the void harness of
the C source (y discarded) has exactly the same call trace as the
instrumented one, and its outcome is the instrumented outcome with the final
local state erased — y affects no observable output. -/
theorem ExportX.main_y_unused (ctx : ExchangeContext) :
    (ExportX.mainVoid ctx).1 = (ExportX.main ctx).1
    ∧ (ExportX.mainVoid ctx).2
        = Except.map (fun _ => ()) (ExportX.main ctx).2 := by
  cases h1 : polyglot_export "x" 42 ctx with
  | error e => simp [ExportX.main, ExportX.mainVoid, h1, Except.map]
  | ok ctx1 =>
    cases h2 : polyglot_eval_file "llvm" "hello.ll" ctx1 with
    | error e => simp [ExportX.main, ExportX.mainVoid, h1, h2, Except.map]
    | ok v =>
      cases h3 : polyglot_as_i8 v with
      | error e => simp [ExportX.main, ExportX.mainVoid, h1, h2, h3, Except.map]
      | ok y => simp [ExportX.main, ExportX.mainVoid, h1, h2, h3, Except.map]
